import Mathlib

/-
  Shallow embedding of the TrySpeak voice call session engine
  (src/app.py, class VoiceCallHandler and the /api/twilio/stream handler),
  with the data-store wrapper semantics of src/services/cockroachdb_service.py
  (lists of rows; find_one = first match; insert appends; update maps) and
  src/services/sms_service.py (send_sms = append to an outbound message log).
  External services (Google STT, Gemini completion, json.loads) are modelled
  as oracle functions in an Env record; the wall clock is a record of the
  strftime-formatted strings the code derives from datetime.utcnow().
-/

namespace TS

-- ===========================================================================
-- String helpers mirroring the Python string operations used by app.py
-- ===========================================================================

/-- Python str.strip() whitespace set (ASCII). -/
def isPySpace (c : Char) : Bool :=
  c == ' ' || c == '\t' || c == '\n' || c == '\r' || c == '\x0b' || c == '\x0c'

/-- Python s.strip(). -/
def pyStrip (s : String) : String :=
  ⟨((s.data.dropWhile isPySpace).reverse.dropWhile isPySpace).reverse⟩

/-- Python s.lower() (ASCII range; all transcript keywords are ASCII). -/
def pyLower (s : String) : String := ⟨s.data.map Char.toLower⟩

/-- Python s[:n]. -/
def strTakeN (n : Nat) (s : String) : String := ⟨s.data.take n⟩

/-- Python s[n:] for n ≥ 0. -/
def strDropN (n : Nat) (s : String) : String := ⟨s.data.drop n⟩

/-- Python s[-1:] (last character, or "" when s is empty). -/
def pyLastSlice (s : String) : String := ⟨s.data.drop (s.data.length - 1)⟩

/-- Does the needle match at the head of the haystack? -/
def leadMatch : List Char → List Char → Bool
  | [], _ => true
  | _ :: _, [] => false
  | n :: ns, h :: hs => n == h && leadMatch ns hs

/-- Index of the first occurrence of needle in haystack (Python str.find,
with `none` standing for the -1 result). -/
def findSub (needle : List Char) : List Char → Option Nat
  | [] => if needle.isEmpty then some 0 else none
  | h :: hs =>
    if leadMatch needle (h :: hs) then some 0
    else (findSub needle hs).map (fun i => i + 1)

/-- Python `needle in hay`. -/
def strOccurs (hay needle : String) : Bool := (findSub needle.data hay.data).isSome

/-- Python hay.find(needle) as an Option. -/
def strFind (hay needle : String) : Option Nat := findSub needle.data hay.data

/-- Python s.split(sep)[0]: the text before the first occurrence of sep
(the whole string when sep does not occur). -/
def strBeforeFirst (s sep : String) : String :=
  match findSub sep.data s.data with
  | some i => ⟨s.data.take i⟩
  | none => s

/-- Python sep.join(parts). -/
def joinSep (sep : String) : List String → String
  | [] => ""
  | [x] => x
  | x :: y :: xs => x ++ sep ++ joinSep sep (y :: xs)

/-- Python f-string rendering of a value that may be None. -/
def optToPyStr : Option String → String
  | some s => s
  | none => "None"

/-- Code-point-wise string order (used only to model SQL ORDER BY on text). -/
def charsLe : List Char → List Char → Bool
  | [], _ => true
  | _ :: _, [] => false
  | a :: as, b :: bs =>
    if a.toNat < b.toNat then true
    else if b.toNat < a.toNat then false
    else charsLe as bs

def strLe (a b : String) : Bool := charsLe a.data b.data

/-- SQL ORDER BY ... ASC on a nullable text column (NULLs first). -/
def optStrLe : Option String → Option String → Bool
  | none, _ => true
  | some _, none => false
  | some a, some b => strLe a b

/-- Insertion into a sorted list. -/
def insertBy (le : α → α → Bool) (a : α) : List α → List α
  | [] => [a]
  | b :: bs => if le a b then a :: b :: bs else b :: insertBy le a bs

/-- Deterministic sort modelling SQL ORDER BY. -/
def sortBy (le : α → α → Bool) : List α → List α
  | [] => []
  | a :: as => insertBy le a (sortBy le as)

/-- SQL equality against a nullable text column: a comparison with NULL on
either side never matches (this is how psycopg2 renders `col = %s` with a
Python None parameter). -/
def sqlEqOpt : Option String → Option String → Bool
  | some a, some b => decide (a = b)
  | _, _ => false

/-- Python history[-n:]. -/
def lastN (n : Nat) (l : List α) : List α := l.drop (l.length - n)

-- ===========================================================================
-- Data model (table rows of cockroachdb_service.init_db used by app.py)
-- ===========================================================================

/-- One entry of self.transcript / self.conversation_history. -/
structure Msg where
  role : String
  content : String
deriving DecidableEq, Repr

/-- A business_owners row (the fields app.py's call engine reads). -/
structure Owner where
  id : Nat
  phone_number : String
  twilio_phone_number : Option String
  business_name : String
  status : String
deriving DecidableEq, Repr

/-- A their_customers row. -/
structure Customer where
  id : Nat
  business_owner_id : Nat
  phone_number : String
  name : String
  total_calls : Nat
deriving DecidableEq, Repr

/-- A bookings row.  Fields fed from `action_data.get(...)` without a default
are nullable, matching the inserts in handle_action. -/
structure Booking where
  id : Nat
  business_owner_id : Nat
  customer_id : Nat
  customer_name : Option String
  customer_phone : String
  booking_date : Option String
  booking_time : Option String
  service_type : String
  notes : String
  status : String
deriving DecidableEq, Repr

/-- An interactions row (created once, in save_call_log). -/
structure Interaction where
  id : Nat
  vapi_call_id : String
  business_owner_id : Nat
  customer_id : Nat
  itype : String
  caller_phone : String
  call_duration : Nat
  recording_url : String
  transcript : String
  summary : String
  is_emergency : Bool
  created_at : Nat
deriving DecidableEq, Repr

/-- The data store: one list per table plus a fresh-id counter (modelling the
UUID/created_at defaults as monotone stamps). -/
structure DBState where
  business_owners : List Owner
  their_customers : List Customer
  bookings : List Booking
  interactions : List Interaction
  next_id : Nat
deriving DecidableEq, Repr

/-- An outbound SMS recorded by send_sms (fire and forget); `dest` is the
`to=` argument of send_sms. -/
structure Sms where
  dest : String
  message : String
deriving DecidableEq, Repr

/-- The mutable world the call engine touches: data store plus SMS log. -/
structure SysState where
  db : DBState
  sms : List Sms
deriving DecidableEq, Repr

-- ===========================================================================
-- Data-store operations at the call sites used by app.py
-- ===========================================================================

/-- DB.find_one("their_customers", {business_owner_id, phone_number}). -/
def findCustomer (db : DBState) (oid : Nat) (phone : String) : Option Customer :=
  db.their_customers.find? (fun c =>
    decide (c.business_owner_id = oid) && decide (c.phone_number = phone))

/-- DB.insert("their_customers", {...}) returning the inserted row. -/
def insertCustomer (db : DBState) (oid : Nat) (phone name : String) (calls : Nat) :
    Customer × DBState :=
  let c : Customer := ⟨db.next_id, oid, phone, name, calls⟩
  (c, { db with their_customers := db.their_customers ++ [c], next_id := db.next_id + 1 })

/-- DB.update("their_customers", {id}, {total_calls}). -/
def updateCustomerCalls (db : DBState) (cid : Nat) (n : Nat) : DBState :=
  { db with their_customers :=
      db.their_customers.map (fun c => if c.id = cid then { c with total_calls := n } else c) }

/-- DB.insert("bookings", {...}). -/
def insertBooking (db : DBState) (oid cid : Nat) (cname : Option String) (cphone : String)
    (bdate btime : Option String) (stype nts stat : String) : Booking × DBState :=
  let b : Booking := ⟨db.next_id, oid, cid, cname, cphone, bdate, btime, stype, nts, stat⟩
  (b, { db with bookings := db.bookings ++ [b], next_id := db.next_id + 1 })

/-- DB.find_one("bookings", {business_owner_id, customer_name, booking_time,
status: "pending"}) — the edit_booking lookup. -/
def findBookingForEdit (db : DBState) (oid : Nat) (cname old_time : Option String) :
    Option Booking :=
  db.bookings.find? (fun b =>
    decide (b.business_owner_id = oid) && sqlEqOpt b.customer_name cname &&
    sqlEqOpt b.booking_time old_time && decide (b.status = "pending"))

/-- DB.update("bookings", {id}, {booking_time}). -/
def updateBookingTime (db : DBState) (bid : Nat) (newt : Option String) : DBState :=
  { db with bookings :=
      db.bookings.map (fun b => if b.id = bid then { b with booking_time := newt } else b) }

/-- DB.insert("interactions", {...}). -/
def insertInteraction (db : DBState) (sid : String) (oid cid : Nat) (ty phone : String)
    (dur : Nat) (full summ : String) (emer : Bool) : Interaction × DBState :=
  let i : Interaction := ⟨db.next_id, sid, oid, cid, ty, phone, dur, "", full, summ, emer, db.next_id⟩
  (i, { db with interactions := db.interactions ++ [i], next_id := db.next_id + 1 })

/-- DB.find_one("business_owners", {twilio_phone_number, status: "active"}). -/
def findActiveOwner (db : DBState) (toN : String) : Option Owner :=
  db.business_owners.find? (fun o =>
    sqlEqOpt o.twilio_phone_number (some toN) && decide (o.status = "active"))

/-- Pending bookings of a business on a given date ordered by booking_time ASC
(the query in get_system_prompt). -/
def todayBookings (db : DBState) (oid : Nat) (today : String) : List Booking :=
  sortBy (fun a b => optStrLe a.booking_time b.booking_time)
    (db.bookings.filter (fun b =>
      decide (b.business_owner_id = oid) && sqlEqOpt b.booking_date (some today) &&
      decide (b.status = "pending")))

/-- Pending bookings of a customer ordered by booking_date ASC, limit 5
(the query in load_context). -/
def customerPendingBookings (db : DBState) (cid : Nat) : List Booking :=
  (sortBy (fun a b => optStrLe a.booking_date b.booking_date)
    (db.bookings.filter (fun b =>
      decide (b.customer_id = cid) && decide (b.status = "pending")))).take 5

/-- Interactions of a customer ordered by created_at DESC, limit 3
(the query in load_context). -/
def customerPastCalls (db : DBState) (cid : Nat) : List Interaction :=
  (sortBy (fun a b => decide (b.created_at ≤ a.created_at))
    (db.interactions.filter (fun i => decide (i.customer_id = cid)))).take 3

-- ===========================================================================
-- External-service oracles and the wall clock
-- ===========================================================================

/-- One role-tagged text part sent to the completion service. -/
structure Content where
  role : String
  text : String
deriving DecidableEq, Repr

/-- The parsed directive object (json.loads output restricted to the keys
handle_action reads; a field is `none` when the key is absent or null). -/
structure ActionData where
  action : Option String
  customer_name : Option String
  customer_phone : Option String
  booking_date : Option String
  booking_time : Option String
  service_type : Option String
  nts : Option String
  old_time : Option String
  new_time : Option String
deriving DecidableEq, Repr

/-- External services as oracles: speech recognition (`none` = no results or
a service error, both of which app.py turns into an aborted turn), the Gemini
completion call (`Except.error` = the API raised), and json.loads on the
sliced directive string (`none` = a parse exception). -/
structure Env where
  stt : String → Option String
  gemini : List Content → Except String String
  jsonParse : String → Option ActionData

/-- The strftime-formatted strings get_system_prompt derives from
datetime.utcnow(); fixing a Clock fixes the turn's wall-clock reading. -/
structure Clock where
  current_date : String
  current_time : String
  today_ymd : String
  tomorrow_day : String
deriving DecidableEq, Repr

-- ===========================================================================
-- CallSession state (class VoiceCallHandler)
-- ===========================================================================

/-- The per-call mutable state of VoiceCallHandler.  The customer dict's
injected past_calls / bookings entries are split into their own fields. -/
structure Handler where
  call_sid : String
  from_number : String
  to_number : String
  transcript : List Msg
  owner : Option Owner
  customer : Option Customer
  customer_past_calls : List Interaction
  customer_bookings : List Booking
  conversation_history : List Msg
  is_owner : Bool
deriving DecidableEq, Repr

/-- VoiceCallHandler.__init__ followed by load_context (read-only; on a
failed owner lookup it merely logs and leaves owner = None). -/
def load_context (db : DBState) (call_sid fromN toN : String) : Handler :=
  let base : Handler := ⟨call_sid, fromN, toN, [], none, none, [], [], [], false⟩
  match findActiveOwner db toN with
  | none => base
  | some o =>
    if fromN = o.phone_number then
      { base with owner := some o, is_owner := true }
    else
      match findCustomer db o.id fromN with
      | none => { base with owner := some o }
      | some c =>
        { base with
          owner := some o,
          customer := some c,
          customer_past_calls := customerPastCalls db c.id,
          customer_bookings := customerPendingBookings db c.id }

-- ===========================================================================
-- Prompt Composer (get_system_prompt)
-- ===========================================================================

/-- The appointments_today string: today's pending bookings as
"name at time" joined by ", ", or the fixed fallback. -/
def apptsToday (db : DBState) (oid : Nat) (today : String) : String :=
  let tb := todayBookings db oid today
  if tb = [] then "No appointments today"
  else joinSep ", " (tb.map (fun b => optToPyStr b.customer_name ++ " at " ++ optToPyStr b.booking_time))

/-- The Manager Mode instruction text (the f-string at app.py:238-258). -/
def managerPrompt (clock : Clock) (o : Owner) (appts : String) : String :=
  "You are Julian, the loyal British Butler AI for " ++ o.business_name ++ ".\n\n" ++
  "CURRENT DATE/TIME: " ++ clock.current_date ++ " at " ++ clock.current_time ++ "\n\n" ++
  "MANAGER MODE - The boss is calling.\n\n" ++
  "TODAY\x27S SCHEDULE: " ++ appts ++ "\n\n" ++
  "YOUR JOB:\n" ++
  "1. Greet warmly (e.g., \x27Ah, the Gaffer—checking in on the troops?\x27)\n" ++
  "2. Provide today\x27s schedule\n" ++
  "3. Help EDIT appointments if requested\n" ++
  "4. Answer questions about bookings and customers\n" ++
  "5. Use British wit and professional tone\n\n" ++
  "EDITING APPOINTMENTS:\n" ++
  "When the boss wants to change a meeting time, return JSON:\n" ++
  "\x7b\"action\": \"edit_booking\", \"customer_name\": \"John Smith\", \"old_time\": \"14:00\", \"new_time\": \"15:30\"\x7d\n\n" ++
  "TONE: Dry English wit. Use phrases like \x27Right then\x27, \x27Gaffer\x27, \x27Lovely stuff\x27, \x27Sorted\x27.\n"

/-- The customer_context block of the Receptionist Mode prompt. -/
def customerContext (customer : Option Customer) (past : List Interaction)
    (bks : List Booking) : String :=
  match customer with
  | none => "NEW CUSTOMER - First time calling\n"
  | some c =>
    let s1 := "RETURNING CUSTOMER: " ++ c.name ++ "\n" ++
      "Total previous calls: " ++ toString c.total_calls ++ "\n"
    let s2 := match past with
      | [] => s1
      | lc :: _ => s1 ++ "\nLAST CONVERSATION: " ++ strTakeN 150 lc.summary ++ "\n"
    match bks with
    | [] => s2
    | _ => s2 ++ "\nUPCOMING BOOKINGS:\n" ++
        joinSep "" (bks.map (fun b =>
          "- " ++ optToPyStr b.booking_date ++ " at " ++ optToPyStr b.booking_time ++
          ": " ++ b.service_type ++ "\n"))

/-- The Receptionist Mode instruction text (the f-string at app.py:283-310). -/
def receptionistPrompt (clock : Clock) (o : Owner) (appts ctx : String) : String :=
  "You are Julian, the professional British AI receptionist for " ++ o.business_name ++ ".\n\n" ++
  "CURRENT DATE/TIME: " ++ clock.current_date ++ " at " ++ clock.current_time ++ "\n\n" ++
  "RECEPTIONIST MODE\n\n" ++
  ctx ++ "\n\n" ++
  "TODAY\x27S SCHEDULE (for reference): " ++ appts ++ "\n\n" ++
  "YOUR JOB:\n" ++
  "1. Answer questions about services, pricing, availability\n" ++
  "2. Help customers book appointments\n" ++
  "3. Check availability against today\x27s schedule\n" ++
  "4. Take messages for the owner\n" ++
  "5. Handle emergencies appropriately\n\n" ++
  "BOOKING PROCESS:\n" ++
  "- Ask for: full name, phone number, preferred date/time, type of service\n" ++
  "- If they say \"tomorrow\", that means " ++ clock.tomorrow_day ++ "\n" ++
  "- Check against existing appointments to avoid double-booking\n" ++
  "- When you have all details, return JSON:\n" ++
  "\x7b\"action\": \"create_booking\", \"customer_name\": \"...\", \"customer_phone\": \"...\", \"booking_date\": \"YYYY-MM-DD\", \"booking_time\": \"HH:MM\", \"service_type\": \"...\"\x7d\n\n" ++
  "EMERGENCY KEYWORDS: If you hear \"burst pipe\", \"leak\", \"flooding\", \"no power\", \"sparks\", \"gas leak\", mark as EMERGENCY\n\n" ++
  "TONE: Professional, warm, British accent. Keep responses under 3 sentences unless providing detailed info.\n"

/-- The body of get_system_prompt as a function of exactly the session fields
it reads.  With owner = None the Python code raises a TypeError at
self.owner["id"] (modelled as Except.error); callers catch it. -/
def promptCore (clock : Clock) (db : DBState) (isOwner : Bool) (owner : Option Owner)
    (customer : Option Customer) (past : List Interaction) (bks : List Booking) :
    Except String String :=
  match owner with
  | none => Except.error "TypeError: NoneType object is not subscriptable"
  | some o =>
    let appts := apptsToday db o.id clock.today_ymd
    if isOwner then Except.ok (managerPrompt clock o appts)
    else Except.ok (receptionistPrompt clock o appts (customerContext customer past bks))

/-- get_system_prompt (app.py:212-310), re-derived fresh each turn. -/
def get_system_prompt (clock : Clock) (db : DBState) (h : Handler) : Except String String :=
  promptCore clock db h.is_owner h.owner h.customer h.customer_past_calls h.customer_bookings

-- ===========================================================================
-- Turn Engine (get_gemini_response, handle_action, process_speech)
-- ===========================================================================

/-- The fixed apology substituted when the completion path raises. -/
def apologyText : String :=
  "I apologize, I\x27m having a technical moment. Could you repeat that?"

/-- The contents list sent to the completion service: system prompt first,
then the last 10 history entries with assistant mapped to the model role,
then the new user message. -/
def buildContents (sys : String) (history : List Msg) (user_text : String) : List Content :=
  ⟨"user", sys⟩ ::
    ((lastN 10 history).map (fun m =>
      ⟨if m.role = "assistant" then "model" else "user", m.content⟩) ++
     [⟨"user", user_text⟩])

/-- get_gemini_response (app.py:384-422).  The try block covers prompt
composition and the completion call; on any raise the fixed apology is
returned and conversation_history is left untouched.  On success the user
and assistant texts are appended to conversation_history as a pair. -/
def get_gemini_response (env : Env) (clock : Clock) (db : DBState) (h : Handler)
    (user_text : String) : Handler × String :=
  match get_system_prompt clock db h with
  | Except.error _ => (h, apologyText)
  | Except.ok sys =>
    match env.gemini (buildContents sys h.conversation_history user_text) with
    | Except.error _ => (h, apologyText)
    | Except.ok ai_text =>
      ({ h with conversation_history :=
          h.conversation_history ++ [⟨"user", user_text⟩, ⟨"assistant", ai_text⟩] },
       ai_text)

/-- The directive marker that triggers handle_action: Python
`\x27"action":\x27 in ai_response`. -/
def actionColonMarker : String := "\"action\":"

/-- The substring used both to slice out the JSON and to cut the spoken
text: Python `\x27\x7b"action"\x27`. -/
def actionBraceMarker : String := "\x7b\"action\""

/-- The string handed to json.loads: response_text[response_text.find(marker):].
When find returns -1 the Python slice [-1:] yields the last character. -/
def jsonStrOf (response_text : String) : String :=
  match strFind response_text actionBraceMarker with
  | some i => strDropN i response_text
  | none => pyLastSlice response_text

/-- handle_action (app.py:424-497).  The whole body is inside try/except: a
json.loads failure, or the TypeError from self.owner["id"] when owner is
None, leaves the world untouched (logged only). -/
def handle_action (env : Env) (st : SysState) (h : Handler) (response_text : String) :
    SysState :=
  match env.jsonParse (jsonStrOf response_text) with
  | none => st
  | some ad =>
    if ad.action = some "create_booking" then
      match h.owner with
      | none => st
      | some o =>
        let phone := ad.customer_phone.getD h.from_number
        let cdb : Customer × DBState :=
          match findCustomer st.db o.id phone with
          | some c => (c, st.db)
          | none => insertCustomer st.db o.id phone (ad.customer_name.getD "Unknown") 0
        let bdb := insertBooking cdb.2 o.id cdb.1.id ad.customer_name phone
          ad.booking_date ad.booking_time (ad.service_type.getD "General")
          (ad.nts.getD "") "pending"
        { db := bdb.2,
          sms := st.sms ++ [⟨o.phone_number,
            "📅 NEW BOOKING\n" ++ optToPyStr ad.customer_name ++ "\n" ++
            optToPyStr ad.booking_date ++ " at " ++ optToPyStr ad.booking_time ++ "\n" ++
            optToPyStr ad.service_type⟩] }
    else if ad.action = some "edit_booking" then
      match h.owner with
      | none => st
      | some o =>
        match findBookingForEdit st.db o.id ad.customer_name ad.old_time with
        | some b => { st with db := updateBookingTime st.db b.id ad.new_time }
        | none => st
    else st

/-- The outcome of one turn: the new handler, the new world, and the text
passed to speech synthesis (none = no outbound audio for this frame; the
outbound audio is exactly the synthesis of the returned text). -/
structure TurnOut where
  handler : Handler
  sys : SysState
  tts : Option String
deriving Repr

/-- process_speech (app.py:312-382): STT, the empty/short-transcript guard,
transcript bookkeeping, the completion call, action detection and the
removal of the JSON from the spoken response. -/
def process_speech (env : Env) (clock : Clock) (st : SysState) (h : Handler)
    (audio_data : String) : TurnOut :=
  match env.stt audio_data with
  | none => ⟨h, st, none⟩
  | some user_text =>
    if user_text = "" ∨ (pyStrip user_text).length < 2 then ⟨h, st, none⟩
    else
      let h1 := { h with transcript := h.transcript ++ [⟨"user", user_text⟩] }
      let gr := get_gemini_response env clock st.db h1 user_text
      let h2 := { gr.1 with transcript := gr.1.transcript ++ [⟨"assistant", gr.2⟩] }
      if strOccurs gr.2 actionColonMarker = true then
        ⟨h2, handle_action env st h2 gr.2,
         some (pyStrip (strBeforeFirst gr.2 actionBraceMarker))⟩
      else
        ⟨h2, st, some gr.2⟩

-- ===========================================================================
-- Finalization (save_call_log)
-- ===========================================================================

/-- The fixed emergency keyword set (app.py:542). -/
def emergency_keywords : List String :=
  ["emergency", "burst", "leak", "flooding", "sparks", "gas leak"]

/-- "role: content" lines joined by newlines. -/
def fullTranscript (t : List Msg) : String :=
  joinSep "\n" (t.map (fun m => m.role ++ ": " ++ m.content))

/-- `any(kw in full_transcript.lower() for kw in emergency_keywords)`. -/
def isEmergencyTranscript (full : String) : Bool :=
  emergency_keywords.any (fun kw => strOccurs (pyLower full) kw)

/-- The urgent SMS body sent on emergency finalization. -/
def urgentMsg (h : Handler) : String :=
  "🚨 EMERGENCY CALL\n" ++ h.from_number ++ "\n" ++ strTakeN 100 (fullTranscript h.transcript)

/-- save_call_log (app.py:499-571).  The body is wrapped in try/except: with
owner = None the first owner dereference raises and nothing happens.
Otherwise: find-or-create the customer and bump its counter, summarize via
the completion service (falling back to a 200-char excerpt), detect
emergencies and bookings, insert one interaction, and fire the urgent SMS
for non-owner emergencies. -/
def save_call_log (env : Env) (st : SysState) (h : Handler) (duration : Nat) : SysState :=
  match h.owner with
  | none => st
  | some o =>
    let cres : Nat × DBState :=
      match findCustomer st.db o.id h.from_number with
      | some c => (c.id, updateCustomerCalls st.db c.id (c.total_calls + 1))
      | none =>
        let r := insertCustomer st.db o.id h.from_number
          (if h.is_owner then "Owner" else "New Customer") 1
        (r.1.id, r.2)
    let full := fullTranscript h.transcript
    let ai_summary :=
      match env.gemini [⟨"user", "Summarize this call in 1-2 sentences:\n" ++ full⟩] with
      | Except.ok s => s
      | Except.error _ => strTakeN 200 full
    let emer := isEmergencyTranscript full
    let bk := strOccurs full "create_booking"
    let r2 := insertInteraction cres.2 h.call_sid o.id cres.1
      (if h.is_owner then "owner_test" else if bk then "booking" else "inbound_call")
      h.from_number duration full ai_summary emer
    { db := r2.2,
      sms := if emer && !h.is_owner then st.sms ++ [⟨o.phone_number, urgentMsg h⟩] else st.sms }

-- ===========================================================================
-- Call Session State Machine (the /api/twilio/stream websocket loop)
-- ===========================================================================

/-- Transport events delivered over the websocket. -/
inductive TEvent where
  | start (call_sid from_num to_num : String)
  | media (payload : String)
  | stop
deriving DecidableEq, Repr

/-- Per-connection loop state: the handler (None until the start event), the
world, the texts synthesized into outbound audio frames, and whether the
loop has exited. -/
structure Session where
  handler : Option Handler
  sys : SysState
  outbound : List String
  closed : Bool
deriving Repr

/-- The fixed greeting synthesized on the start event, before any user turn. -/
def greetingText : String := "Hello! How can I help you today?"

/-- One iteration of the twilio_stream receive loop (app.py:596-675).
The greeting is sent unconditionally after constructing the handler; media
frames are processed only when a handler exists; stop finalizes and breaks. -/
def streamStep (env : Env) (clock : Clock) (dur : Nat) (s : Session) (ev : TEvent) :
    Session :=
  if s.closed then s else
  match ev with
  | TEvent.start cs f t =>
    let h := load_context s.sys.db cs f t
    { s with handler := some h, outbound := s.outbound ++ [greetingText] }
  | TEvent.media payload =>
    match s.handler with
    | none => s
    | some h =>
      let r := process_speech env clock s.sys h payload
      { s with
        handler := some r.handler
        sys := r.sys
        outbound := s.outbound ++ (match r.tts with | some txt => [txt] | none => []) }
  | TEvent.stop =>
    match s.handler with
    | none => { s with closed := true }
    | some h => { s with sys := save_call_log env s.sys h dur, closed := true }

/-- A fresh websocket connection over an initial data store. -/
def initSession (db : DBState) : Session := ⟨none, ⟨db, []⟩, [], false⟩

/-- Run the receive loop over a list of transport events. -/
def runSession (env : Env) (clock : Clock) (dur : Nat) (db : DBState)
    (events : List TEvent) : Session :=
  events.foldl (streamStep env clock dur) (initSession db)

-- ===========================================================================
-- Concrete instances used to evaluate the model on closed inputs
-- ===========================================================================

/-- A concrete active business owner. -/
def ownerA : Owner := ⟨1, "+447700900000", some "+442079460000", "Smith Plumbing", "active"⟩

/-- A store holding just that owner. -/
def dbA : DBState := ⟨[ownerA], [], [], [], 100⟩

def stA : SysState := ⟨dbA, []⟩

/-- A fixed wall-clock reading. -/
def clockA : Clock := ⟨"Sunday, 12 October 2025", "10:30", "2025-10-12", "Monday, 13 October"⟩

/-- A receptionist-mode session for a non-owner caller. -/
def hCaller : Handler :=
  ⟨"CA1", "+447700900111", "+442079460000", [], some ownerA, none, [], [], [], false⟩

/-- A parsed create_booking directive. -/
def adCreate : ActionData :=
  ⟨some "create_booking", some "Jane", some "+447700900222", some "2025-10-13",
   some "15:00", some "Plumbing", none, none, none⟩

/-- An AI response carrying a create_booking directive. -/
def respCreate : String :=
  "Lovely, all booked. \x7b\"action\": \"create_booking\", \"customer_name\": \"Jane\"\x7d"

/-- Oracles for the create_booking run: json.loads yields adCreate. -/
def envC1 : Env :=
  ⟨fun _ => some "Book me in please", fun _ => Except.ok respCreate, fun _ => some adCreate⟩

/-- An existing pending booking for the edit_booking run. -/
def bookingB : Booking :=
  ⟨50, 1, 7, some "John Smith", "+447700900333", some "2025-10-12", some "14:00",
   "General", "", "pending"⟩

def dbB : DBState := ⟨[ownerA], [], [bookingB], [], 100⟩

def stB : SysState := ⟨dbB, []⟩

/-- A parsed edit_booking directive matching bookingB. -/
def adEdit : ActionData :=
  ⟨some "edit_booking", some "John Smith", none, none, none, none, none,
   some "14:00", some "15:30"⟩

def respEdit : String :=
  "Sorted. \x7b\"action\": \"edit_booking\", \"customer_name\": \"John Smith\"\x7d"

def envC2 : Env :=
  ⟨fun _ => some "Move John to half three", fun _ => Except.ok respEdit, fun _ => some adEdit⟩

/-- A manager-mode session (the boss calling). -/
def hBoss : Handler :=
  ⟨"CA2", "+447700900000", "+442079460000", [], some ownerA, none, [], [], [], true⟩

/-- A finalized non-owner call whose caller reported a flood. -/
def hFlood : Handler :=
  ⟨"CA3", "+447700900111", "+442079460000",
   [⟨"user", "My kitchen is flooding badly"⟩, ⟨"assistant", "Help is on the way."⟩],
   some ownerA, none, [], [], [], false⟩

/-- Oracles where speech recognition returns no result. -/
def envNoStt : Env := ⟨fun _ => none, fun _ => Except.ok "x", fun _ => none⟩

/-- Oracles producing a response whose directive JSON does not parse. -/
def respBad : String := "Sure. \x7b\"action\": oops"

def envBadJson : Env :=
  ⟨fun _ => some "Book please", fun _ => Except.ok respBad, fun _ => none⟩

/-- A store with no business matching any number (the C6 scenario). -/
def dbEmpty : DBState := ⟨[], [], [], [], 1⟩

def envHello : Env := ⟨fun _ => some "Hello there", fun _ => Except.ok "ignored", fun _ => none⟩

/-- Oracles whose completion service always errors. -/
def envGemDown : Env :=
  ⟨fun _ => some "Hello there", fun _ => Except.error "boom", fun _ => none⟩

/-- Two sessions equal on everything the Prompt Composer reads, differing in
transcript and conversation history. -/
def hPromptA : Handler :=
  ⟨"CA4", "+447700900000", "+442079460000", [], some ownerA, none, [], [], [], true⟩

def hPromptB : Handler :=
  ⟨"CA4", "+447700900000", "+442079460000", [⟨"user", "hi"⟩], some ownerA, none, [], [],
   [⟨"user", "hi"⟩, ⟨"assistant", "Right then."⟩], true⟩

/-- A finalized owner call where the only emergency keyword occurs inside
assistant-generated text. -/
def hOwnerEmerg : Handler :=
  ⟨"CA5", "+447700900000", "+442079460000",
   [⟨"user", "How are the troops?"⟩,
    ⟨"assistant", "All quiet, though yesterday a caller mentioned a gas leak."⟩],
   some ownerA, none, [], [], [], true⟩

/-- Oracles for finalization runs (summary call succeeds). -/
def envSumm : Env := ⟨fun _ => none, fun _ => Except.ok "A short summary.", fun _ => none⟩

-- ===========================================================================
-- Postconditions named by the claims
-- ===========================================================================

/-- What C1 asserts of one handle_action run on a well-formed create_booking
directive: exactly one pending Booking appended carrying the directive
fields, exactly one SMS to the owner appended, and the Customer table either
untouched (phone already known) or extended by exactly the find-or-create
row keyed on (business, directive phone or caller number). -/
def C1Post (env : Env) (st : SysState) (h : Handler) (resp : String) (ad : ActionData)
    (o : Owner) : Prop :=
  let phone := ad.customer_phone.getD h.from_number
  let st2 := handle_action env st h resp
  (∃ b : Booking, st2.db.bookings = st.db.bookings ++ [b] ∧
     b.business_owner_id = o.id ∧ b.status = "pending" ∧
     b.customer_name = ad.customer_name ∧ b.customer_phone = phone ∧
     b.booking_date = ad.booking_date ∧ b.booking_time = ad.booking_time ∧
     b.service_type = ad.service_type.getD "General") ∧
  (∃ m : Sms, st2.sms = st.sms ++ [m] ∧ m.dest = o.phone_number) ∧
  (∀ c : Customer, findCustomer st.db o.id phone = some c →
     st2.db.their_customers = st.db.their_customers) ∧
  (findCustomer st.db o.id phone = none →
     ∃ c : Customer, st2.db.their_customers = st.db.their_customers ++ [c] ∧
       c.business_owner_id = o.id ∧ c.phone_number = phone) ∧
  st2.db.interactions = st.db.interactions

/-- What C2 asserts of one handle_action run on a well-formed edit_booking
directive: when the (business, customer_name, old_time, pending) lookup
finds a row, exactly that row's time becomes new_time and nothing else
changes; when it finds nothing, the whole world is untouched. -/
def C2Post (env : Env) (st : SysState) (h : Handler) (resp : String) (ad : ActionData)
    (o : Owner) : Prop :=
  let st2 := handle_action env st h resp
  (∀ b : Booking, findBookingForEdit st.db o.id ad.customer_name ad.old_time = some b →
     st2 = { st with db := updateBookingTime st.db b.id ad.new_time }) ∧
  (findBookingForEdit st.db o.id ad.customer_name ad.old_time = none → st2 = st)

/-- What C3 asserts of one finalization: an owner call never adds an urgent
SMS, and a non-owner call whose transcript matches an emergency keyword adds
exactly one, addressed to the owner's phone. -/
def C3Post (env : Env) (st : SysState) (h : Handler) (dur : Nat) (o : Owner) : Prop :=
  let st2 := save_call_log env st h dur
  (h.is_owner = true → st2.sms = st.sms) ∧
  (h.is_owner = false → isEmergencyTranscript (fullTranscript h.transcript) = true →
     st2.sms = st.sms ++ [⟨o.phone_number, urgentMsg h⟩])

/-- What C10 asserts of one finalization with an emergency keyword anywhere
in the transcript: the single persisted Interaction has is_emergency = true,
while an owner call still sends no urgent SMS. -/
def C10Post (env : Env) (st : SysState) (h : Handler) (dur : Nat) : Prop :=
  let st2 := save_call_log env st h dur
  (∃ i : Interaction, st2.db.interactions = st.db.interactions ++ [i] ∧
     i.is_emergency = true) ∧
  (h.is_owner = true → st2.sms = st.sms)

-- ===========================================================================
-- Helper lemmas
-- ===========================================================================

/-- The fixed apology contains no action directive marker. -/
theorem apology_has_no_marker : strOccurs apologyText actionColonMarker = false := by decide

/-- When every completion call errors, get_gemini_response returns the fixed
apology and the handler (hence conversation_history) unchanged, whether the
raise came from prompt composition or from the completion call itself. -/
theorem gemini_error_apology (env : Env) (clock : Clock) (db : DBState) (h : Handler)
    (t e : String) (hgem : ∀ cs, env.gemini cs = Except.error e) :
    get_gemini_response env clock db h t = (h, apologyText) := by
  unfold get_gemini_response
  cases hpc : get_system_prompt clock db h with
  | error m => rfl
  | ok sys => simp only [hgem]

-- ===========================================================================
-- Claim theorems
-- ===========================================================================

/-- C4: whenever speech recognition returns no result, or a transcript that
is empty or shorter than 2 characters after trimming, process_speech aborts
the turn: the handler (transcript and conversation history) and the world
are returned unchanged and no text reaches speech synthesis.  The completion
oracle is universally quantified, so the outcome is independent of it — no
AI call is made. -/
theorem short_transcript_skips_turn (env : Env) (clock : Clock) (st : SysState)
    (h : Handler) (audio : String)
    (hstt : env.stt audio = none ∨
      ∃ t, env.stt audio = some t ∧ (t = "" ∨ (pyStrip t).length < 2)) :
    process_speech env clock st h audio = ⟨h, st, none⟩ := by
  rcases hstt with hnone | ⟨t, hsome, hcond⟩
  · simp only [process_speech, hnone]
  · simp only [process_speech, hsome]
    rw [if_pos hcond]

theorem short_transcript_skips_turn_witness :
    (envNoStt.stt "frame" = none) ∧
    process_speech envNoStt clockA stA hCaller "frame" = ⟨hCaller, stA, none⟩ :=
  ⟨rfl, short_transcript_skips_turn envNoStt clockA stA hCaller "frame" (Or.inl rfl)⟩

/-- C8: the Prompt Composer is deterministic given a fixed clock and fixed
data-store state — it is a pure function of exactly the session-context
fields (mode flag, owner, customer, cached history and bookings), so two
invocations within the same turn with identical CallSession state yield
identical instruction text, schedule and current-time content included. -/
theorem prompt_composer_deterministic (clock : Clock) (db : DBState) (h1 h2 : Handler)
    (e1 : h1.is_owner = h2.is_owner) (e2 : h1.owner = h2.owner)
    (e3 : h1.customer = h2.customer)
    (e4 : h1.customer_past_calls = h2.customer_past_calls)
    (e5 : h1.customer_bookings = h2.customer_bookings) :
    get_system_prompt clock db h1 = get_system_prompt clock db h2 := by
  unfold get_system_prompt
  rw [e1, e2, e3, e4, e5]

theorem prompt_composer_deterministic_witness :
    hPromptA.is_owner = hPromptB.is_owner ∧ hPromptA.owner = hPromptB.owner ∧
    hPromptA.customer = hPromptB.customer ∧
    hPromptA.customer_past_calls = hPromptB.customer_past_calls ∧
    hPromptA.customer_bookings = hPromptB.customer_bookings ∧
    get_system_prompt clockA dbA hPromptA = get_system_prompt clockA dbA hPromptB :=
  ⟨rfl, rfl, rfl, rfl, rfl,
   prompt_composer_deterministic clockA dbA hPromptA hPromptB rfl rfl rfl rfl rfl⟩

/-- C6 (divergence witness): with no active business matching the callee
number, the session does NOT terminate before the first turn.  The start
event still sends the greeting, and a subsequent media frame is processed
into a full turn: the transcript is mutated and the apology response is
synthesized and sent, so the Active state is reached with owner = none. -/
theorem missing_business_session_continues :
    (runSession envHello clockA 0 dbEmpty
      [TEvent.start "CA9" "+447700900001" "+442079460000",
       TEvent.media "frame"]).outbound = [greetingText, apologyText] ∧
    ((runSession envHello clockA 0 dbEmpty
      [TEvent.start "CA9" "+447700900001" "+442079460000",
       TEvent.media "frame"]).handler.map (fun hh => hh.transcript)) =
      some [⟨"user", "Hello there"⟩, ⟨"assistant", apologyText⟩] ∧
    ((runSession envHello clockA 0 dbEmpty
      [TEvent.start "CA9" "+447700900001" "+442079460000",
       TEvent.media "frame"]).handler.map (fun hh => hh.owner)) = some none :=
  ⟨by decide, by decide, by decide⟩

/-- C5 (counterexample): an AI response whose embedded JSON fails to parse
is NOT spoken unmodified.  For the concrete response "Sure. \x7b"action": oops"
(json.loads fails on its tail), the text passed to speech synthesis is just
"Sure." — the raw directive text has been stripped, not included — while the
world is indeed left unmutated. -/
theorem directive_text_not_spoken_counterexample :
    (process_speech envBadJson clockA stA hCaller "frame").tts = some "Sure." ∧
    ("Sure." : String) ≠ respBad ∧
    strOccurs "Sure." actionBraceMarker = false ∧
    (process_speech envBadJson clockA stA hCaller "frame").sys = stA :=
  ⟨by decide, by decide, by decide, by decide⟩

/-- C3: at finalization with the owner resolved, an owner call never adds an
urgent SMS regardless of keyword presence, and a non-owner call whose full
transcript matches an emergency keyword (case-insensitive substring) adds
exactly one urgent SMS addressed to the business owner's phone. -/
theorem emergency_sms_policy (env : Env) (st : SysState) (h : Handler) (dur : Nat)
    (o : Owner) (howner : h.owner = some o) :
    C3Post env st h dur o := by
  unfold C3Post save_call_log
  simp only [howner]
  constructor
  · intro hio
    simp [hio]
  · intro hio hkw
    simp [hio, hkw]

set_option maxRecDepth 20000 in
theorem emergency_sms_policy_witness :
    hFlood.owner = some ownerA ∧
    hFlood.is_owner = false ∧
    isEmergencyTranscript (fullTranscript hFlood.transcript) = true ∧
    C3Post envSumm stA hFlood 42 ownerA :=
  ⟨rfl, rfl, by decide, emergency_sms_policy envSumm stA hFlood 42 ownerA rfl⟩

/-- C10: whenever any emergency keyword occurs as a case-insensitive
substring anywhere in the full transcript — assistant-generated lines and
owner calls included — the single persisted Interaction row carries
is_emergency = true, even though the urgent SMS itself is withheld for
owner callers. -/
theorem emergency_flag_persisted (env : Env) (st : SysState) (h : Handler) (dur : Nat)
    (o : Owner) (howner : h.owner = some o)
    (hkw : isEmergencyTranscript (fullTranscript h.transcript) = true) :
    C10Post env st h dur := by
  unfold C10Post save_call_log
  simp only [howner]
  constructor
  · cases hfc : findCustomer st.db o.id h.from_number with
    | some c =>
      simp only [hfc, updateCustomerCalls, insertInteraction]
      exact ⟨_, rfl, hkw⟩
    | none =>
      simp only [hfc, insertCustomer, insertInteraction]
      exact ⟨_, rfl, hkw⟩
  · intro hio
    simp [hio]

set_option maxRecDepth 20000 in
theorem emergency_flag_persisted_witness :
    hOwnerEmerg.owner = some ownerA ∧
    hOwnerEmerg.is_owner = true ∧
    isEmergencyTranscript (fullTranscript hOwnerEmerg.transcript) = true ∧
    C10Post envSumm stA hOwnerEmerg 42 :=
  ⟨rfl, rfl, by decide,
   emergency_flag_persisted envSumm stA hOwnerEmerg 42 ownerA rfl (by decide)⟩

/-- C5 (amended): for every AI response containing the directive marker
whose embedded JSON fails to parse, the failure is absorbed (logged) and no
data-store or SMS mutation occurs, but the text passed to speech synthesis
is the response truncated at the first occurrence of the literal substring
that opens the directive — not the unmodified response: the raw directive
text is stripped from the spoken output whenever that substring occurs. -/
theorem parse_failure_effects (env : Env) (clock : Clock) (st : SysState) (h : Handler)
    (audio t resp : String)
    (hstt : env.stt audio = some t)
    (hlen : ¬(t = "" ∨ (pyStrip t).length < 2))
    (hresp : (get_gemini_response env clock st.db
        { h with transcript := h.transcript ++ [⟨"user", t⟩] } t).2 = resp)
    (hmark : strOccurs resp actionColonMarker = true)
    (hparse : env.jsonParse (jsonStrOf resp) = none) :
    (process_speech env clock st h audio).sys = st ∧
    (process_speech env clock st h audio).tts =
      some (pyStrip (strBeforeFirst resp actionBraceMarker)) := by
  simp only [process_speech, hstt]
  rw [if_neg hlen]
  simp only [hresp, hmark, eq_self_iff_true, if_true]
  constructor
  · simp only [handle_action, hparse]
  · trivial

set_option maxRecDepth 20000 in
theorem parse_failure_effects_witness :
    envBadJson.stt "frame" = some "Book please" ∧
    ¬(("Book please" : String) = "" ∨ (pyStrip "Book please").length < 2) ∧
    (get_gemini_response envBadJson clockA stA.db
      { hCaller with transcript := hCaller.transcript ++ [⟨"user", "Book please"⟩] }
      "Book please").2 = respBad ∧
    strOccurs respBad actionColonMarker = true ∧
    envBadJson.jsonParse (jsonStrOf respBad) = none ∧
    (process_speech envBadJson clockA stA hCaller "frame").sys = stA ∧
    (process_speech envBadJson clockA stA hCaller "frame").tts =
      some (pyStrip (strBeforeFirst respBad actionBraceMarker)) :=
  ⟨rfl, by decide, rfl, by decide, rfl,
   (parse_failure_effects envBadJson clockA stA hCaller "frame" "Book please" respBad
     rfl (by decide) rfl (by decide) rfl).1,
   (parse_failure_effects envBadJson clockA stA hCaller "frame" "Book please" respBad
     rfl (by decide) rfl (by decide) rfl).2⟩

/-- C7: on any turn where the completion service errors (every completion
call raises), the Turn Engine substitutes the fixed apology string as the
turn's response — it is spoken, appended to the transcript, and the world is
untouched — and the turn completes normally, so the session continues. -/
theorem completion_failure_apology (env : Env) (clock : Clock) (st : SysState)
    (h : Handler) (audio t e : String)
    (hstt : env.stt audio = some t)
    (hlen : ¬(t = "" ∨ (pyStrip t).length < 2))
    (hgem : ∀ cs, env.gemini cs = Except.error e) :
    (process_speech env clock st h audio).tts = some apologyText ∧
    (process_speech env clock st h audio).handler.transcript =
      h.transcript ++ [⟨"user", t⟩, ⟨"assistant", apologyText⟩] ∧
    (process_speech env clock st h audio).sys = st := by
  have hg := gemini_error_apology env clock st.db
    { h with transcript := h.transcript ++ [⟨"user", t⟩] } t e hgem
  simp only [process_speech, hstt]
  rw [if_neg hlen]
  simp only [hg, apology_has_no_marker]
  refine ⟨rfl, by simp, rfl⟩

theorem completion_failure_apology_witness :
    envGemDown.stt "frame" = some "Hello there" ∧
    ¬(("Hello there" : String) = "" ∨ (pyStrip "Hello there").length < 2) ∧
    (process_speech envGemDown clockA stA hCaller "frame").tts = some apologyText ∧
    (process_speech envGemDown clockA stA hCaller "frame").handler.transcript =
      hCaller.transcript ++ [⟨"user", "Hello there"⟩, ⟨"assistant", apologyText⟩] ∧
    (process_speech envGemDown clockA stA hCaller "frame").sys = stA :=
  ⟨rfl, by decide,
   completion_failure_apology envGemDown clockA stA hCaller "frame" "Hello there" "boom"
     rfl (by decide) (fun _ => rfl)⟩

/-- C9: on a completion-service error the rolling conversation history is
left completely unchanged — neither the user utterance nor the apology is
appended — even though both the user utterance and the apology are appended
to the call transcript; and on success, history only ever grows by the
user/assistant pair. -/
theorem history_unchanged_on_completion_failure (env : Env) (clock : Clock) (st : SysState)
    (h : Handler) (audio t e : String)
    (hstt : env.stt audio = some t)
    (hlen : ¬(t = "" ∨ (pyStrip t).length < 2))
    (hgem : ∀ cs, env.gemini cs = Except.error e) :
    (process_speech env clock st h audio).handler.conversation_history =
      h.conversation_history ∧
    (process_speech env clock st h audio).handler.transcript =
      h.transcript ++ [⟨"user", t⟩, ⟨"assistant", apologyText⟩] ∧
    (∀ (env2 : Env) (ai : String), (∀ cs, env2.gemini cs = Except.ok ai) →
      (get_gemini_response env2 clock st.db h t).1.conversation_history =
        h.conversation_history ∨
      (get_gemini_response env2 clock st.db h t).1.conversation_history =
        h.conversation_history ++ [⟨"user", t⟩, ⟨"assistant", ai⟩]) := by
  have hg := gemini_error_apology env clock st.db
    { h with transcript := h.transcript ++ [⟨"user", t⟩] } t e hgem
  refine ⟨?_, ?_, ?_⟩
  · simp only [process_speech, hstt]
    rw [if_neg hlen]
    simp only [hg, apology_has_no_marker]
    rfl
  · simp only [process_speech, hstt]
    rw [if_neg hlen]
    simp only [hg, apology_has_no_marker]
    simp
  · intro env2 ai hgem2
    unfold get_gemini_response
    cases hpc : get_system_prompt clock st.db h with
    | error m => exact Or.inl rfl
    | ok sys =>
      simp only [hgem2]
      exact Or.inr trivial

/-- C1: for every AI response whose sliced directive JSON parses to a
create_booking action, handle_action find-or-creates exactly one Customer
keyed on (business, directive phone falling back to the caller number),
appends exactly one Booking row with status "pending" carrying the
directive's name, phone, date, time and service type, and appends exactly
one notification message addressed to the business owner's phone. -/
theorem create_booking_effects (env : Env) (st : SysState) (h : Handler) (resp : String)
    (ad : ActionData) (o : Owner)
    (hparse : env.jsonParse (jsonStrOf resp) = some ad)
    (hact : ad.action = some "create_booking")
    (howner : h.owner = some o) :
    C1Post env st h resp ad o := by
  unfold C1Post
  cases hfc : findCustomer st.db o.id (ad.customer_phone.getD h.from_number) with
  | some c =>
    refine ⟨?_, ?_, ?_, ?_, ?_⟩
    · simp only [handle_action, hparse, hact, reduceIte, howner, hfc, insertBooking]
      exact ⟨_, rfl, rfl, rfl, rfl, rfl, rfl, rfl, rfl⟩
    · simp only [handle_action, hparse, hact, reduceIte, howner, hfc, insertBooking]
      exact ⟨_, rfl, rfl⟩
    · intro c2 hc2
      simp only [handle_action, hparse, hact, reduceIte, howner, hfc, insertBooking]
    · intro hn
      rw [hfc] at hn
      exact Option.noConfusion hn
    · simp only [handle_action, hparse, hact, reduceIte, howner, hfc, insertBooking]
  | none =>
    refine ⟨?_, ?_, ?_, ?_, ?_⟩
    · simp only [handle_action, hparse, hact, reduceIte, howner, hfc, insertCustomer,
        insertBooking]
      exact ⟨_, rfl, rfl, rfl, rfl, rfl, rfl, rfl, rfl⟩
    · simp only [handle_action, hparse, hact, reduceIte, howner, hfc, insertCustomer,
        insertBooking]
      exact ⟨_, rfl, rfl⟩
    · intro c2 hc2
      rw [hfc] at hc2
      exact Option.noConfusion hc2
    · intro hn
      simp only [handle_action, hparse, hact, reduceIte, howner, hfc, insertCustomer,
        insertBooking]
      exact ⟨_, rfl, rfl, rfl⟩
    · simp only [handle_action, hparse, hact, reduceIte, howner, hfc, insertCustomer,
        insertBooking]

theorem create_booking_effects_witness :
    envC1.jsonParse (jsonStrOf respCreate) = some adCreate ∧
    adCreate.action = some "create_booking" ∧
    hCaller.owner = some ownerA ∧
    C1Post envC1 stA hCaller respCreate adCreate ownerA :=
  ⟨rfl, rfl, rfl,
   create_booking_effects envC1 stA hCaller respCreate adCreate ownerA rfl rfl rfl⟩

/-- C2: for every AI response whose sliced directive JSON parses to an
edit_booking action, handle_action looks up a pending Booking by (business,
customer_name, booking_time = old_time); when one is found, exactly that
row's time becomes new_time and nothing else in the world changes; when none
is found, the world is completely untouched and nothing is surfaced. -/
theorem edit_booking_effects (env : Env) (st : SysState) (h : Handler) (resp : String)
    (ad : ActionData) (o : Owner)
    (hparse : env.jsonParse (jsonStrOf resp) = some ad)
    (hact : ad.action = some "edit_booking")
    (howner : h.owner = some o) :
    C2Post env st h resp ad o := by
  unfold C2Post
  simp only [handle_action, hparse, hact, howner]
  rw [if_neg (by decide : ¬(some "edit_booking" = some ("create_booking" : String)))]
  simp only [eq_self_iff_true, if_true]
  constructor
  · intro b hb
    simp only [hb]
  · intro hn
    simp only [hn]

theorem edit_booking_effects_witness :
    envC2.jsonParse (jsonStrOf respEdit) = some adEdit ∧
    adEdit.action = some "edit_booking" ∧
    hBoss.owner = some ownerA ∧
    findBookingForEdit stB.db ownerA.id adEdit.customer_name adEdit.old_time = some bookingB ∧
    handle_action envC2 stB hBoss respEdit =
      { stB with db := updateBookingTime stB.db bookingB.id adEdit.new_time } :=
  ⟨rfl, rfl, rfl, by decide,
   (edit_booking_effects envC2 stB hBoss respEdit adEdit ownerA rfl rfl rfl).1
     bookingB (by decide)⟩

theorem history_unchanged_on_completion_failure_witness :
    envGemDown.stt "frame" = some "Hello there" ∧
    ¬(("Hello there" : String) = "" ∨ (pyStrip "Hello there").length < 2) ∧
    (process_speech envGemDown clockA stB hCaller "frame").handler.conversation_history =
      hCaller.conversation_history ∧
    (process_speech envGemDown clockA stB hCaller "frame").handler.transcript =
      hCaller.transcript ++ [⟨"user", "Hello there"⟩, ⟨"assistant", apologyText⟩] :=
  ⟨rfl, by decide,
   (history_unchanged_on_completion_failure envGemDown clockA stB hCaller "frame"
     "Hello there" "boom" rfl (by decide) (fun _ => rfl)).1,
   (history_unchanged_on_completion_failure envGemDown clockA stB hCaller "frame"
     "Hello there" "boom" rfl (by decide) (fun _ => rfl)).2.1⟩

end TS
